import Mathlib

/-!
Verification development for the LST Calculator plugin (`lst_plugin.py`).

The plugin chains two raster-algebra evaluations (TOA radiance, then
brightness temperature) through `QgsRasterCalculator`, validates and
reloads the written output, and styles the final raster with a fixed
thermal color ramp.

The embedding below follows the source closely:

* formulas handed to the raster calculator are modelled as an expression
  AST `Expr` (the parse of the formula strings built in `calculate_toa`
  and `calculate_bt`), with a per-literal flag recording whether the
  literal was written in floating-point form (e.g. `1.0`) in the string;
* numeric evaluation is over `ℚ` (exact field arithmetic standing in for
  the engine's double-precision evaluation; floating-point rounding is
  not modelled), with the natural logarithm kept abstract as a function
  parameter `lnQ` since only its sign on arguments `> 1` matters to the
  claims;
* the stateful parts (`raster_calculation`, `calculate_lst`) are
  explicit state-passing functions over an environment `Env` of external
  oracles (file removal behaviour, engine result codes, layer validity,
  band statistics) and a file store `Files`, returning an
  `Except String` result — matching the source's `raise Exception(msg)`
  pattern — together with the list of observable side effects (`Event`).
-/

namespace LSTPlugin

/-- Parse tree of a raster-calculator formula string. A numeric literal
carries the flag `isFloatLit`: whether it was written in floating-point
form (with a decimal point or exponent) in the formula string, which is
what forces the calculator to evaluate in floating point. -/
inductive Expr where
  | num (v : ℚ) (isFloatLit : Bool)
  | var (nm : String)
  | add (a b : Expr)
  | sub (a b : Expr)
  | mul (a b : Expr)
  | div (a b : Expr)
  | ln (a : Expr)
deriving DecidableEq, Repr

/-- Evaluation of a formula at one pixel. `lnQ` is the (abstract)
natural logarithm, `env` gives the pixel value of each band reference.
Division by zero and `ln` of a non-positive argument are the engine's
evaluation errors, modelled as `none`. -/
def evalExpr (lnQ : ℚ → ℚ) (env : String → ℚ) : Expr → Option ℚ
  | .num v _ => some v
  | .var nm => some (env nm)
  | .add a b =>
    match evalExpr lnQ env a, evalExpr lnQ env b with
    | some x, some y => some (x + y)
    | _, _ => none
  | .sub a b =>
    match evalExpr lnQ env a, evalExpr lnQ env b with
    | some x, some y => some (x - y)
    | _, _ => none
  | .mul a b =>
    match evalExpr lnQ env a, evalExpr lnQ env b with
    | some x, some y => some (x * y)
    | _, _ => none
  | .div a b =>
    match evalExpr lnQ env a, evalExpr lnQ env b with
    | some x, some y => if y = 0 then none else some (x / y)
    | _, _ => none
  | .ln a =>
    match evalExpr lnQ env a with
    | some x => if x ≤ 0 then none else some (lnQ x)
    | none => none

/-- Whether the formula contains a literal written in floating-point
form (this is what the source's comment `# Force float calculation`
relies on). -/
def containsFloatLit : Expr → Bool
  | .num _ isF => isF
  | .var _ => false
  | .add a b => containsFloatLit a || containsFloatLit b
  | .sub a b => containsFloatLit a || containsFloatLit b
  | .mul a b => containsFloatLit a || containsFloatLit b
  | .div a b => containsFloatLit a || containsFloatLit b
  | .ln a => containsFloatLit a

/-- Pixel environment binding a single band reference. -/
def envOf (nm : String) (v : ℚ) : String → ℚ :=
  fun m => if m = nm then v else 0

/-- Parse of the TOA formula string `({ml} * 1.0 * "b10@1") + {al}` built
in `calculate_toa` (multiplication associates to the left; `1.0` and the
Python float interpolations of `ml`, `al` are floating-point literals). -/
def toa_formula (ml al : ℚ) : Expr :=
  .add (.mul (.mul (.num ml true) (.num 1.0 true)) (.var "b10@1")) (.num al true)

/-- Thermal constant K1 for Landsat 8 band 10, from `calculate_bt`. -/
def k1 : ℚ := 774.89

/-- Thermal constant K2 for Landsat 8 band 10, from `calculate_bt`. -/
def k2 : ℚ := 1321.08

/-- Parse of the BT formula string
`({k2} / ln( ({k1} / ("toa@1" + 0.000001) + 1 )) ) - 273.15` built in
`calculate_bt`. The `+ 1` addend is the only integer literal; the
whitespace normalisation `formula.replace(..).strip()` does not change
the parse. -/
def bt_formula : Expr :=
  .sub
    (.div (.num k2 true)
      (.ln (.add (.div (.num k1 true)
                   (.add (.var "toa@1") (.num 0.000001 true)))
             (.num 1 false))))
    (.num 273.15 true)

/-- Content of a raster dataset, identified by the computation that
produced it (the engine is deterministic: re-running the same formula on
the same inputs writes the same pixels). -/
inductive Content where
  | source (path : String)
  | computed (formula : Expr) (inputs : List (String × Content))

/-- Model of `QgsRasterLayer`: source path, display name, validity of
the opened dataset, and the content it refers to. -/
structure RasterLayer where
  path : String
  name : String
  valid : Bool
  content : Content

/-- Model of `QgsRasterCalculatorEntry` as built by
`create_raster_entry`. -/
structure Entry where
  ref : String
  raster : RasterLayer
  bandNumber : ℕ

/-- One `QgsColorRampShader.ColorRampItem`: breakpoint value, RGB color,
label. -/
structure ColorRampItem where
  value : ℚ
  color : ℕ × ℕ × ℕ
  label : String
deriving DecidableEq, Repr

/-- The fixed breakpoint list built in `style_thermal_layer`. -/
def thermal_ramp_items : List ColorRampItem :=
  [⟨20, (0, 0, 255), "20°C"⟩,
   ⟨30, (0, 255, 255), "30°C"⟩,
   ⟨40, (0, 255, 0), "40°C"⟩,
   ⟨50, (255, 255, 0), "50°C"⟩,
   ⟨60, (255, 165, 0), "60°C"⟩,
   ⟨70, (255, 0, 0), "70°C"⟩]

/-- Outcome of `os.remove` on a path: success, `PermissionError`
(locked/in-use file), or any other `OSError` carrying its message. -/
inductive RemoveOutcome where
  | ok
  | permissionError
  | otherError (msg : String)

/-- Observable side effects of a pipeline run. -/
inductive Event where
  | removed (path : String)
  | statsLogged (ref : String) (mn mx : Option ℚ)
  | engineInvoked (formula : Expr) (path : String)
  | styled (nm : String) (items : List ColorRampItem)
  | addedMapLayer (nm : String) (c : Content)
  | pushedSuccess (title msg : String)
  | pushedCritical (title msg : String)
  | logCritical (msg : String)

/-- External oracles the plugin calls into: project home path, `os.remove`
behaviour per path, `processCalculation` result code, `QgsRasterLayer`
open validity per path, and `bandStatistics` min/max per source path
(`none`/`none` when the statistics computation fails). -/
structure Env where
  homePath : String
  removeBehavior : String → RemoveOutcome
  engineResult : Expr → String → ℕ
  layerValid : String → Bool
  statsOf : String → Option ℚ × Option ℚ

/-- The file store at the output directory: which paths currently hold a
file, and the content written there. -/
abbrev Files := String → Option Content

/-- Effect of a successful `os.remove`. -/
def remove_file (fs : Files) (p : String) : Files :=
  fun q => if q = p then none else fs q

/-- Effect of the engine writing its output file. -/
def write_file (fs : Files) (p : String) (c : Content) : Files :=
  fun q => if q = p then some c else fs q

/-- The output path `os.path.join(homePath, output_name + ".tif")`. -/
def tifPath (env : Env) (output_name : String) : String :=
  env.homePath ++ "/" ++ output_name ++ ".tif"

/-- The `error_map` dictionary of `raster_calculation`; `Option.getD`
below models `dict.get(result, 'Unknown error')`. -/
def error_map : ℕ → Option String
  | 1 => some "Missing input layers"
  | 2 => some "Invalid formula syntax"
  | 3 => some "Calculation error (e.g., division by zero)"
  | 4 => some "GDAL internal error"
  | _ => none

/-- The pre-write cleanup step of `raster_calculation`: delete an
existing file at the output path; a `PermissionError` is converted to
the file-in-use message, any other failure propagates as itself. -/
def cleanup_existing (env : Env) (fs : Files) (p : String) :
    Except String Unit × List Event × Files :=
  match fs p with
  | none => (.ok (), [], fs)
  | some _ =>
    match env.removeBehavior p with
    | .ok => (.ok (), [.removed p], remove_file fs p)
    | .permissionError =>
      (.error ("File in use: " ++ p ++ ". Close other programs."), [], fs)
    | .otherError msg => (.error msg, [], fs)

/-- The input-validation loop of `raster_calculation`: raise on the
first invalid entry, otherwise log each entry's band statistics. -/
def validate_entries (env : Env) : List Entry → Except String Unit × List Event
  | [] => (.ok (), [])
  | e :: rest =>
    if e.raster.valid then
      let r := validate_entries env rest
      (r.1, .statsLogged e.ref (env.statsOf e.raster.path).1
              (env.statsOf e.raster.path).2 :: r.2)
    else (.error ("Invalid input layer: " ++ e.raster.path), [])

/-- Content the engine writes for a formula over the given entries. -/
def computed_output (formula : Expr) (entries : List Entry) : Content :=
  .computed formula (entries.map fun e => (e.ref, e.raster.content))

/-- `LSTCalculator.raster_calculation`: cleanup of an existing output
file, input validation with statistics logging, engine invocation,
result-code check against `error_map`, reload of the written output and
validity check, statistics logging of the output. -/
def raster_calculation (env : Env) (fs : Files) (formula : Expr)
    (entries : List Entry) (output_name : String) :
    Except String RasterLayer × List Event × Files :=
  let output_path := tifPath env output_name
  let cl := cleanup_existing env fs output_path
  match cl.1 with
  | .error e => (.error e, cl.2.1, cl.2.2)
  | .ok _ =>
    let va := validate_entries env entries
    match va.1 with
    | .error e => (.error e, cl.2.1 ++ va.2, cl.2.2)
    | .ok _ =>
      let evs := cl.2.1 ++ va.2 ++ [.engineInvoked formula output_path]
      let result := env.engineResult formula output_path
      if result ≠ 0 then
        (.error ("GDAL Error " ++ toString result ++ ": " ++
          (error_map result).getD "Unknown error"), evs, cl.2.2)
      else
        let c := computed_output formula entries
        let fs2 := write_file cl.2.2 output_path c
        let result_layer : RasterLayer :=
          { path := output_path, name := output_name,
            valid := env.layerValid output_path, content := c }
        if result_layer.valid then
          (.ok result_layer,
           evs ++ [.statsLogged output_name (env.statsOf output_path).1
                     (env.statsOf output_path).2],
           fs2)
        else
          (.error ("Failed to create output layer: " ++ output_path), evs, fs2)

/-- `LSTCalculator.create_raster_entry`. -/
def create_raster_entry (layer : RasterLayer) (pfx : String) : Entry :=
  { ref := pfx ++ "@1", raster := layer, bandNumber := 1 }

/-- `LSTCalculator.calculate_toa`: TOA radiance stage. -/
def calculate_toa (env : Env) (fs : Files) (band_layer : RasterLayer)
    (ml al : ℚ) : Except String RasterLayer × List Event × Files :=
  raster_calculation env fs (toa_formula ml al)
    [create_raster_entry band_layer "b10"] "TOA_Radiance"

/-- `LSTCalculator.calculate_bt`: brightness-temperature stage. -/
def calculate_bt (env : Env) (fs : Files) (toa_layer : RasterLayer) :
    Except String RasterLayer × List Event × Files :=
  raster_calculation env fs bt_formula
    [create_raster_entry toa_layer "toa"] "BrightnessTemp"

/-- Opening a raster layer from a path (`QgsRasterLayer(path, name)`). -/
def load_layer (env : Env) (path nm : String) : RasterLayer :=
  { path := path, name := nm, valid := env.layerValid path,
    content := .source path }

/-- `LSTCalculator.style_thermal_layer`: hands the fixed thermal ramp to
the renderer attached to the layer. -/
def style_thermal_layer (layer : RasterLayer) : Event :=
  .styled layer.name thermal_ramp_items

/-- Body of the `try` block of `LSTCalculator.calculate_lst`: load and
validate band 10, run the TOA stage then the BT stage (with the fixed
Landsat 8 constants `ml`, `al`), style the result and add it to the
project. An `.error` result is an exception escaping the block, with
the effects performed so far. -/
def lst_body (env : Env) (fs : Files) (band10_path : String) :
    Except String Unit × List Event × Files :=
  let band10_layer := load_layer env band10_path "B10_RAW"
  if band10_layer.valid then
    let ml : ℚ := 0.0003342
    let al : ℚ := 0.1
    let t := calculate_toa env fs band10_layer ml al
    match t.1 with
    | .error e => (.error e, t.2.1, t.2.2)
    | .ok toa_layer =>
      let b := calculate_bt env t.2.2 toa_layer
      match b.1 with
      | .error e => (.error e, t.2.1 ++ b.2.1, b.2.2)
      | .ok bt_layer =>
        (.ok (), t.2.1 ++ b.2.1 ++
          [style_thermal_layer bt_layer,
           .addedMapLayer bt_layer.name bt_layer.content,
           .pushedSuccess "Success" "LST calculation completed!"], b.2.2)
  else (.error "Invalid Band 10 file. Check file format and path.", [], fs)

/-- `LSTCalculator.calculate_lst`: the `try`/`except` wrapper around
`lst_body`. Any exception is reported once through the message bar at
critical level with its original text, and logged. -/
def calculate_lst (env : Env) (fs : Files) (band10_path : String) :
    List Event × Files :=
  let r := lst_body env fs band10_path
  match r.1 with
  | .ok _ => (r.2.1, r.2.2)
  | .error e =>
    (r.2.1 ++ [.pushedCritical "Error" e, .logCritical ("Error: " ++ e)], r.2.2)

/-- Events emitted inside `raster_calculation` (never user-facing
notifications or layer registrations). -/
def isCoreEvent : Event → Bool
  | .removed _ => true
  | .statsLogged _ _ _ => true
  | .engineInvoked _ _ => true
  | _ => false

/-- Whether an event is a critical notification to the user. -/
def isPushedCritical : Event → Bool
  | .pushedCritical _ _ => true
  | _ => false

/-- The layers a run adds to the project, in order. -/
def addedLayers (evs : List Event) : List (String × Content) :=
  evs.filterMap fun e =>
    match e with
    | .addedMapLayer nm c => some (nm, c)
    | _ => none

/-- Demo input layer used to instantiate theorems with hypotheses. -/
def demoLayer : RasterLayer :=
  { path := "in.tif", name := "BrightnessTemp", valid := true,
    content := .source "in.tif" }

/-- Empty file store. -/
def fs0 : Files := fun _ => none

/-- File store with a stale file at every path. -/
def fsWithOutputs : Files := fun _ => some (.source "old")

/-- Benign environment: removals succeed, the engine succeeds, every
layer opens as valid, statistics are unavailable (`none`/`none`). -/
def demoEnv : Env :=
  { homePath := "home", removeBehavior := fun _ => .ok,
    engineResult := fun _ _ => 0, layerValid := fun _ => true,
    statsOf := fun _ => (none, none) }

/-- Environment in which no raster layer opens as valid. -/
def badEnv : Env := { demoEnv with layerValid := fun _ => false }

/-- Environment in which `os.remove` always raises `PermissionError`. -/
def lockedEnv : Env :=
  { demoEnv with removeBehavior := fun _ => .permissionError }

/-- Environment in which `os.remove` always raises a non-permission
`OSError`. -/
def dirEnv : Env :=
  { demoEnv with
    removeBehavior := fun _ => .otherError "IsADirectoryError: output" }

/-- Environment in which the engine always returns result code 5. -/
def code5Env : Env := { demoEnv with engineResult := fun _ _ => 5 }

/-- Demo entry list over the demo layer. -/
def demoEntries : List Entry := [create_raster_entry demoLayer "b10"]

/-- Cleanup is a no-op when no file exists at the output path. -/
theorem cleanup_none (env : Env) (fs : Files) (p : String) (h : fs p = none) :
    cleanup_existing env fs p = (.ok (), [], fs) := by
  simp [cleanup_existing, h]

/-- Cleanup deletes an existing file when removal succeeds. -/
theorem cleanup_some_ok (env : Env) (fs : Files) (p : String) (c : Content)
    (h : fs p = some c) (hr : env.removeBehavior p = .ok) :
    cleanup_existing env fs p = (.ok (), [.removed p], remove_file fs p) := by
  simp [cleanup_existing, h, hr]

/-- Cleanup classifies a `PermissionError` as the file-in-use failure. -/
theorem cleanup_some_perm (env : Env) (fs : Files) (p : String) (c : Content)
    (h : fs p = some c) (hr : env.removeBehavior p = .permissionError) :
    cleanup_existing env fs p =
      (.error ("File in use: " ++ p ++ ". Close other programs."), [], fs) := by
  simp [cleanup_existing, h, hr]

/-- Cleanup propagates any other removal failure unchanged. -/
theorem cleanup_some_other (env : Env) (fs : Files) (p : String) (c : Content)
    (m : String) (h : fs p = some c) (hr : env.removeBehavior p = .otherError m) :
    cleanup_existing env fs p = (.error m, [], fs) := by
  simp [cleanup_existing, h, hr]

/-- Cleanup succeeds whenever removal succeeds, whether or not a file
exists. -/
theorem cleanup_ok_of_remove_ok (env : Env) (fs : Files) (p : String)
    (hr : env.removeBehavior p = .ok) :
    (cleanup_existing env fs p).1 = .ok () := by
  cases h : fs p with
  | none => simp [cleanup_existing, h]
  | some c => simp [cleanup_existing, h, hr]

/-- Validation succeeds when every entry's raster is valid. -/
theorem validate_ok_of_valid (env : Env) (es : List Entry)
    (h : ∀ e ∈ es, e.raster.valid = true) :
    (validate_entries env es).1 = .ok () := by
  induction es with
  | nil => rfl
  | cons e rest ih =>
    have he : e.raster.valid = true := h e (by simp)
    simp only [validate_entries, he, if_true]
    exact ih fun x hx => h x (by simp [hx])

/-- Validation emits only statistics-log events. -/
theorem validate_events_core (env : Env) (es : List Entry) :
    ∀ ev ∈ (validate_entries env es).2, isCoreEvent ev = true := by
  induction es with
  | nil => intro ev hev; simp [validate_entries] at hev
  | cons e rest ih =>
    intro ev hev
    by_cases he : e.raster.valid
    · simp only [validate_entries, he, if_true, List.mem_cons] at hev
      rcases hev with h | h
      · subst h; rfl
      · exact ih ev h
    · simp [validate_entries, he] at hev

/-- When validation passes, each entry's statistics (possibly
`none`/`none`) are logged. -/
theorem validate_logs_stats (env : Env) (es : List Entry)
    (h : ∀ e ∈ es, e.raster.valid = true) :
    ∀ e ∈ es, Event.statsLogged e.ref (env.statsOf e.raster.path).1
        (env.statsOf e.raster.path).2 ∈ (validate_entries env es).2 := by
  induction es with
  | nil => intro e he; simp at he
  | cons a rest ih =>
    intro e he
    have ha : a.raster.valid = true := h a (by simp)
    rcases List.mem_cons.mp he with h1 | h1
    · subst h1; simp [validate_entries, ha]
    · simp only [validate_entries, ha, if_true, List.mem_cons]
      right
      exact ih (fun x hx => h x (by simp [hx])) e h1

/-- The validation verdict does not depend on the statistics oracle. -/
theorem validate_result_stats_independent (env : Env)
    (s2 : String → Option ℚ × Option ℚ) (es : List Entry) :
    (validate_entries { env with statsOf := s2 } es).1 =
      (validate_entries env es).1 := by
  induction es with
  | nil => rfl
  | cons e rest ih =>
    by_cases he : e.raster.valid
    · simp only [validate_entries, he, if_true]
      exact ih
    · simp [validate_entries, he]

/-- Equation: `raster_calculation` when cleanup fails. -/
theorem rc_cleanup_error (env : Env) (fs : Files) (f : Expr) (es : List Entry)
    (nm : String) (e : String)
    (h : (cleanup_existing env fs (tifPath env nm)).1 = .error e) :
    raster_calculation env fs f es nm =
      (.error e, (cleanup_existing env fs (tifPath env nm)).2.1,
       (cleanup_existing env fs (tifPath env nm)).2.2) := by
  simp [raster_calculation, h]

/-- Equation: `raster_calculation` when an input layer is invalid. -/
theorem rc_validate_error (env : Env) (fs : Files) (f : Expr) (es : List Entry)
    (nm : String) (e : String)
    (hc : (cleanup_existing env fs (tifPath env nm)).1 = .ok ())
    (h : (validate_entries env es).1 = .error e) :
    raster_calculation env fs f es nm =
      (.error e,
       (cleanup_existing env fs (tifPath env nm)).2.1 ++ (validate_entries env es).2,
       (cleanup_existing env fs (tifPath env nm)).2.2) := by
  simp [raster_calculation, hc, h]

/-- Equation: `raster_calculation` when the engine reports failure. -/
theorem rc_engine_error (env : Env) (fs : Files) (f : Expr) (es : List Entry)
    (nm : String)
    (hc : (cleanup_existing env fs (tifPath env nm)).1 = .ok ())
    (hv : (validate_entries env es).1 = .ok ())
    (hr : env.engineResult f (tifPath env nm) ≠ 0) :
    raster_calculation env fs f es nm =
      (.error ("GDAL Error " ++ toString (env.engineResult f (tifPath env nm))
          ++ ": " ++ (error_map (env.engineResult f (tifPath env nm))).getD
            "Unknown error"),
       (cleanup_existing env fs (tifPath env nm)).2.1 ++ (validate_entries env es).2
         ++ [.engineInvoked f (tifPath env nm)],
       (cleanup_existing env fs (tifPath env nm)).2.2) := by
  simp [raster_calculation, hc, hv, hr]

/-- Equation: `raster_calculation` when the engine succeeds but the
reloaded output is invalid. -/
theorem rc_reload_fail (env : Env) (fs : Files) (f : Expr) (es : List Entry)
    (nm : String)
    (hc : (cleanup_existing env fs (tifPath env nm)).1 = .ok ())
    (hv : (validate_entries env es).1 = .ok ())
    (hr : env.engineResult f (tifPath env nm) = 0)
    (hl : env.layerValid (tifPath env nm) = false) :
    raster_calculation env fs f es nm =
      (.error ("Failed to create output layer: " ++ tifPath env nm),
       (cleanup_existing env fs (tifPath env nm)).2.1 ++ (validate_entries env es).2
         ++ [.engineInvoked f (tifPath env nm)],
       write_file (cleanup_existing env fs (tifPath env nm)).2.2 (tifPath env nm)
         (computed_output f es)) := by
  simp [raster_calculation, hc, hv, hr, hl]

/-- Equation: `raster_calculation` on full success. -/
theorem rc_success (env : Env) (fs : Files) (f : Expr) (es : List Entry)
    (nm : String)
    (hc : (cleanup_existing env fs (tifPath env nm)).1 = .ok ())
    (hv : (validate_entries env es).1 = .ok ())
    (hr : env.engineResult f (tifPath env nm) = 0)
    (hl : env.layerValid (tifPath env nm) = true) :
    raster_calculation env fs f es nm =
      (.ok { path := tifPath env nm, name := nm, valid := true,
             content := computed_output f es },
       ((cleanup_existing env fs (tifPath env nm)).2.1 ++ (validate_entries env es).2
         ++ [.engineInvoked f (tifPath env nm)])
         ++ [.statsLogged nm (env.statsOf (tifPath env nm)).1
               (env.statsOf (tifPath env nm)).2],
       write_file (cleanup_existing env fs (tifPath env nm)).2.2 (tifPath env nm)
         (computed_output f es)) := by
  simp [raster_calculation, hc, hv, hr, hl]

/-- Every event emitted by `raster_calculation` is a core (non-UI)
event. -/
theorem rc_events_core (env : Env) (fs : Files) (f : Expr) (es : List Entry)
    (nm : String) :
    ∀ ev ∈ (raster_calculation env fs f es nm).2.1, isCoreEvent ev = true := by
  have hcl : ∀ ev ∈ (cleanup_existing env fs (tifPath env nm)).2.1,
      isCoreEvent ev = true := by
    cases h : fs (tifPath env nm) with
    | none => simp [cleanup_existing, h]
    | some c =>
      cases hr : env.removeBehavior (tifPath env nm) with
      | ok => simp [cleanup_existing, h, hr]; rfl
      | permissionError => simp [cleanup_existing, h, hr]
      | otherError m => simp [cleanup_existing, h, hr]
  have hva := validate_events_core env es
  cases hc : (cleanup_existing env fs (tifPath env nm)).1 with
  | error e =>
    rw [rc_cleanup_error env fs f es nm e hc]
    exact hcl
  | ok u =>
    cases u
    cases hv : (validate_entries env es).1 with
    | error e =>
      rw [rc_validate_error env fs f es nm e hc hv]
      intro ev hev
      rcases List.mem_append.mp hev with h | h
      · exact hcl ev h
      · exact hva ev h
    | ok u =>
      cases u
      by_cases hr : env.engineResult f (tifPath env nm) = 0
      · cases hl : env.layerValid (tifPath env nm) with
        | false =>
          rw [rc_reload_fail env fs f es nm hc hv hr hl]
          intro ev hev
          rcases List.mem_append.mp hev with h | h
          · rcases List.mem_append.mp h with h2 | h2
            · exact hcl ev h2
            · exact hva ev h2
          · simp at h; subst h; rfl
        | true =>
          rw [rc_success env fs f es nm hc hv hr hl]
          intro ev hev
          rcases List.mem_append.mp hev with h | h
          · rcases List.mem_append.mp h with h2 | h2
            · rcases List.mem_append.mp h2 with h3 | h3
              · exact hcl ev h3
              · exact hva ev h3
            · simp at h2; subst h2; rfl
          · simp at h; subst h; rfl
      · rw [rc_engine_error env fs f es nm hc hv hr]
        intro ev hev
        rcases List.mem_append.mp hev with h | h
        · rcases List.mem_append.mp h with h2 | h2
          · exact hcl ev h2
          · exact hva ev h2
        · simp at h; subst h; rfl

/-- `raster_calculation` never touches files at other paths. -/
theorem rc_files_preserve (env : Env) (fs : Files) (f : Expr) (es : List Entry)
    (nm : String) (q : String) (hq : q ≠ tifPath env nm) :
    (raster_calculation env fs f es nm).2.2 q = fs q := by
  have hcl : (cleanup_existing env fs (tifPath env nm)).2.2 q = fs q := by
    cases h : fs (tifPath env nm) with
    | none => simp [cleanup_existing, h]
    | some c =>
      cases hr : env.removeBehavior (tifPath env nm) with
      | ok => simp [cleanup_existing, h, hr, remove_file, hq]
      | permissionError => simp [cleanup_existing, h, hr]
      | otherError m => simp [cleanup_existing, h, hr]
  cases hc : (cleanup_existing env fs (tifPath env nm)).1 with
  | error e => rw [rc_cleanup_error env fs f es nm e hc]; exact hcl
  | ok u =>
    cases u
    cases hv : (validate_entries env es).1 with
    | error e => rw [rc_validate_error env fs f es nm e hc hv]; exact hcl
    | ok u =>
      cases u
      by_cases hr : env.engineResult f (tifPath env nm) = 0
      · cases hl : env.layerValid (tifPath env nm) with
        | false =>
          rw [rc_reload_fail env fs f es nm hc hv hr hl]
          simp [write_file, hq, hcl]
        | true =>
          rw [rc_success env fs f es nm hc hv hr hl]
          simp [write_file, hq, hcl]
      · rw [rc_engine_error env fs f es nm hc hv hr]; exact hcl

/-- On a successful evaluation the output file holds the computed
content. -/
theorem rc_ok_written (env : Env) (fs : Files) (f : Expr) (es : List Entry)
    (nm : String) (L : RasterLayer)
    (h : (raster_calculation env fs f es nm).1 = .ok L) :
    (raster_calculation env fs f es nm).2.2 (tifPath env nm) =
      some (computed_output f es)
    ∧ L = { path := tifPath env nm, name := nm, valid := true,
            content := computed_output f es } := by
  cases hc : (cleanup_existing env fs (tifPath env nm)).1 with
  | error e => rw [rc_cleanup_error env fs f es nm e hc] at h ⊢; cases h
  | ok u =>
    cases u
    cases hv : (validate_entries env es).1 with
    | error e => rw [rc_validate_error env fs f es nm e hc hv] at h ⊢; cases h
    | ok u =>
      cases u
      by_cases hr : env.engineResult f (tifPath env nm) = 0
      · cases hl : env.layerValid (tifPath env nm) with
        | false => rw [rc_reload_fail env fs f es nm hc hv hr hl] at h ⊢; cases h
        | true =>
          rw [rc_success env fs f es nm hc hv hr hl] at h ⊢
          refine ⟨by simp [write_file], ?_⟩
          cases h
          rfl
      · rw [rc_engine_error env fs f es nm hc hv hr] at h ⊢; cases h

/-- When a file exists at the output path and removal succeeds, the
evaluation's events record the deletion (as the first action). -/
theorem rc_removed_mem (env : Env) (fs : Files) (f : Expr) (es : List Entry)
    (nm : String) (c : Content)
    (hex : fs (tifPath env nm) = some c)
    (hrm : env.removeBehavior (tifPath env nm) = .ok) :
    ∃ rest, (raster_calculation env fs f es nm).2.1 =
      .removed (tifPath env nm) :: rest := by
  have hcleq := cleanup_some_ok env fs (tifPath env nm) c hex hrm
  have hc : (cleanup_existing env fs (tifPath env nm)).1 = .ok () := by
    rw [hcleq]
  have hcev : (cleanup_existing env fs (tifPath env nm)).2.1 =
      [.removed (tifPath env nm)] := by rw [hcleq]
  cases hv : (validate_entries env es).1 with
  | error e =>
    rw [rc_validate_error env fs f es nm e hc hv]
    exact ⟨(validate_entries env es).2, by rw [hcev]; rfl⟩
  | ok u =>
    cases u
    by_cases hr : env.engineResult f (tifPath env nm) = 0
    · cases hl : env.layerValid (tifPath env nm) with
      | false =>
        rw [rc_reload_fail env fs f es nm hc hv hr hl]
        refine ⟨(validate_entries env es).2 ++ [.engineInvoked f (tifPath env nm)], ?_⟩
        rw [hcev]; simp
      | true =>
        rw [rc_success env fs f es nm hc hv hr hl]
        refine ⟨(validate_entries env es).2 ++ [.engineInvoked f (tifPath env nm)]
          ++ [.statsLogged nm (env.statsOf (tifPath env nm)).1
                (env.statsOf (tifPath env nm)).2], ?_⟩
        rw [hcev]; simp
    · rw [rc_engine_error env fs f es nm hc hv hr]
      refine ⟨(validate_entries env es).2 ++ [.engineInvoked f (tifPath env nm)], ?_⟩
      rw [hcev]; simp

/-- The evaluation result does not depend on the pre-existing file
store, provided removal at the output path succeeds. -/
theorem rc_result_files_independent (env : Env) (f1 f2 : Files) (f : Expr)
    (es : List Entry) (nm : String)
    (hrm : env.removeBehavior (tifPath env nm) = .ok) :
    (raster_calculation env f1 f es nm).1 = (raster_calculation env f2 f es nm).1 := by
  have hc1 := cleanup_ok_of_remove_ok env f1 (tifPath env nm) hrm
  have hc2 := cleanup_ok_of_remove_ok env f2 (tifPath env nm) hrm
  cases hv : (validate_entries env es).1 with
  | error e =>
    rw [rc_validate_error env f1 f es nm e hc1 hv,
        rc_validate_error env f2 f es nm e hc2 hv]
  | ok u =>
    cases u
    by_cases hr : env.engineResult f (tifPath env nm) = 0
    · cases hl : env.layerValid (tifPath env nm) with
      | false =>
        rw [rc_reload_fail env f1 f es nm hc1 hv hr hl,
            rc_reload_fail env f2 f es nm hc2 hv hr hl]
      | true =>
        rw [rc_success env f1 f es nm hc1 hv hr hl,
            rc_success env f2 f es nm hc2 hv hr hl]
    · rw [rc_engine_error env f1 f es nm hc1 hv hr,
          rc_engine_error env f2 f es nm hc2 hv hr]

/-- Core events are neither critical notifications nor layer
registrations. -/
theorem addedLayers_core_nil (l : List Event)
    (h : ∀ ev ∈ l, isCoreEvent ev = true) : addedLayers l = [] := by
  induction l with
  | nil => rfl
  | cons e rest ih =>
    have he := h e (by simp)
    cases e <;> simp_all [addedLayers, isCoreEvent]

/-- `addedLayers` distributes over concatenation. -/
theorem addedLayers_append (a b : List Event) :
    addedLayers (a ++ b) = addedLayers a ++ addedLayers b := by
  simp [addedLayers]

/-- A list of core events contains no critical notification. -/
theorem countP_critical_core_zero (l : List Event)
    (h : ∀ ev ∈ l, isCoreEvent ev = true) :
    List.countP isPushedCritical l = 0 := by
  induction l with
  | nil => rfl
  | cons e rest ih =>
    have he := h e (by simp)
    have hrest := ih fun ev hev => h ev (by simp [hev])
    cases e <;> simp_all [List.countP_cons, isCoreEvent, isPushedCritical]

/-- The two stage output paths are distinct. -/
theorem tif_paths_ne (env : Env) :
    tifPath env "TOA_Radiance" ≠ tifPath env "BrightnessTemp" := by
  intro h
  have hd := congrArg String.data h
  simp only [tifPath, String.data_append, List.append_assoc] at hd
  have h2 := List.append_cancel_left hd
  exact absurd h2 (by decide)

/-- Equation: `lst_body` when band 10 does not open as valid. -/
theorem lst_invalid (env : Env) (fs : Files) (p : String)
    (h : env.layerValid p = false) :
    lst_body env fs p =
      (.error "Invalid Band 10 file. Check file format and path.", [], fs) := by
  simp [lst_body, load_layer, h]

/-- Equation: `lst_body` when the TOA stage fails. -/
theorem lst_toa_error (env : Env) (fs : Files) (p : String) (e : String)
    (hval : env.layerValid p = true)
    (h : (calculate_toa env fs (load_layer env p "B10_RAW") 0.0003342 0.1).1 =
      .error e) :
    lst_body env fs p =
      (.error e,
       (calculate_toa env fs (load_layer env p "B10_RAW") 0.0003342 0.1).2.1,
       (calculate_toa env fs (load_layer env p "B10_RAW") 0.0003342 0.1).2.2) := by
  simp only [load_layer, hval] at h
  simp [lst_body, load_layer, hval, h]

/-- Equation: `lst_body` when the TOA stage succeeds and the BT stage
fails. -/
theorem lst_bt_error (env : Env) (fs : Files) (p : String) (e : String)
    (toaL : RasterLayer)
    (hval : env.layerValid p = true)
    (ht : (calculate_toa env fs (load_layer env p "B10_RAW") 0.0003342 0.1).1 =
      .ok toaL)
    (hb : (calculate_bt env
        (calculate_toa env fs (load_layer env p "B10_RAW") 0.0003342 0.1).2.2
        toaL).1 = .error e) :
    lst_body env fs p =
      (.error e,
       (calculate_toa env fs (load_layer env p "B10_RAW") 0.0003342 0.1).2.1 ++
         (calculate_bt env
           (calculate_toa env fs (load_layer env p "B10_RAW") 0.0003342 0.1).2.2
           toaL).2.1,
       (calculate_bt env
         (calculate_toa env fs (load_layer env p "B10_RAW") 0.0003342 0.1).2.2
         toaL).2.2) := by
  simp only [load_layer, hval] at ht hb
  simp [lst_body, load_layer, hval, ht, hb]

/-- Equation: `lst_body` when both stages succeed. -/
theorem lst_ok (env : Env) (fs : Files) (p : String)
    (toaL btL : RasterLayer)
    (hval : env.layerValid p = true)
    (ht : (calculate_toa env fs (load_layer env p "B10_RAW") 0.0003342 0.1).1 =
      .ok toaL)
    (hb : (calculate_bt env
        (calculate_toa env fs (load_layer env p "B10_RAW") 0.0003342 0.1).2.2
        toaL).1 = .ok btL) :
    lst_body env fs p =
      (.ok (),
       (calculate_toa env fs (load_layer env p "B10_RAW") 0.0003342 0.1).2.1 ++
         (calculate_bt env
           (calculate_toa env fs (load_layer env p "B10_RAW") 0.0003342 0.1).2.2
           toaL).2.1 ++
         [.styled btL.name thermal_ramp_items,
          .addedMapLayer btL.name btL.content,
          .pushedSuccess "Success" "LST calculation completed!"],
       (calculate_bt env
         (calculate_toa env fs (load_layer env p "B10_RAW") 0.0003342 0.1).2.2
         toaL).2.2) := by
  simp only [load_layer, hval] at ht hb
  simp [lst_body, load_layer, hval, ht, hb, style_thermal_layer]

/-- Equation: `calculate_lst` when the body succeeds. -/
theorem calculate_lst_of_ok (env : Env) (fs : Files) (p : String)
    (h : (lst_body env fs p).1 = .ok ()) :
    calculate_lst env fs p = ((lst_body env fs p).2.1, (lst_body env fs p).2.2) := by
  simp [calculate_lst, h]

/-- Equation: `calculate_lst` when the body raises. -/
theorem calculate_lst_of_error (env : Env) (fs : Files) (p : String) (e : String)
    (h : (lst_body env fs p).1 = .error e) :
    calculate_lst env fs p =
      ((lst_body env fs p).2.1 ++
        [.pushedCritical "Error" e, .logCritical ("Error: " ++ e)],
       (lst_body env fs p).2.2) := by
  simp [calculate_lst, h]

/-- The file store returned by `calculate_lst` is the body's. -/
theorem calculate_lst_snd (env : Env) (fs : Files) (p : String) :
    (calculate_lst env fs p).2 = (lst_body env fs p).2.2 := by
  cases h : (lst_body env fs p).1 with
  | error e => rw [calculate_lst_of_error env fs p e h]
  | ok u => cases u; rw [calculate_lst_of_ok env fs p h]

/-- An evaluation registers no layer itself. -/
theorem rc_addedLayers_nil (env : Env) (fs : Files) (f : Expr) (es : List Entry)
    (nm : String) :
    addedLayers (raster_calculation env fs f es nm).2.1 = [] :=
  addedLayers_core_nil _ (rc_events_core env fs f es nm)

/-- Inversion: a successful pipeline body means band 10 was valid and
both stages succeeded, and gives the body's full shape. -/
theorem lst_ok_inversion (env : Env) (fs : Files) (p : String)
    (h : (lst_body env fs p).1 = .ok ()) :
    env.layerValid p = true
    ∧ ∃ toaL btL,
       (calculate_toa env fs (load_layer env p "B10_RAW") 0.0003342 0.1).1 = .ok toaL
       ∧ (calculate_bt env
            (calculate_toa env fs (load_layer env p "B10_RAW") 0.0003342 0.1).2.2
            toaL).1 = .ok btL
       ∧ (lst_body env fs p).2.2 =
           (calculate_bt env
             (calculate_toa env fs (load_layer env p "B10_RAW") 0.0003342 0.1).2.2
             toaL).2.2 := by
  by_cases hval : env.layerValid p = true
  · cases ht : (calculate_toa env fs (load_layer env p "B10_RAW") 0.0003342 0.1).1 with
    | error e => rw [lst_toa_error env fs p e hval ht] at h; simp at h
    | ok toaL =>
      cases hb : (calculate_bt env
          (calculate_toa env fs (load_layer env p "B10_RAW") 0.0003342 0.1).2.2
          toaL).1 with
      | error e => rw [lst_bt_error env fs p e toaL hval ht hb] at h; simp at h
      | ok btL =>
        refine ⟨hval, toaL, btL, rfl, hb, ?_⟩
        rw [lst_ok env fs p toaL btL hval ht hb]
  · have hval2 : env.layerValid p = false := by
      cases hE : env.layerValid p
      · rfl
      · exact absurd hE hval
    rw [lst_invalid env fs p hval2] at h
    simp at h

/-- The pipeline body's verdict and the layers it registers do not
depend on the pre-existing file store when removal at both stage output
paths succeeds. -/
theorem lst_result_files_independent (env : Env) (f1 f2 : Files) (p : String)
    (h1 : env.removeBehavior (tifPath env "TOA_Radiance") = .ok)
    (h2 : env.removeBehavior (tifPath env "BrightnessTemp") = .ok) :
    (lst_body env f1 p).1 = (lst_body env f2 p).1
    ∧ addedLayers (lst_body env f1 p).2.1 = addedLayers (lst_body env f2 p).2.1 := by
  by_cases hval : env.layerValid p = true
  case neg =>
    have hval2 : env.layerValid p = false := by
      cases hE : env.layerValid p
      · rfl
      · exact absurd hE hval
    rw [lst_invalid env f1 p hval2, lst_invalid env f2 p hval2]
    exact ⟨rfl, rfl⟩
  case pos =>
    have cT1 : addedLayers
        (calculate_toa env f1 (load_layer env p "B10_RAW") 0.0003342 0.1).2.1 = [] :=
      rc_addedLayers_nil env f1 _ _ _
    have cT2 : addedLayers
        (calculate_toa env f2 (load_layer env p "B10_RAW") 0.0003342 0.1).2.1 = [] :=
      rc_addedLayers_nil env f2 _ _ _
    have htEq : (calculate_toa env f1 (load_layer env p "B10_RAW") 0.0003342 0.1).1 =
        (calculate_toa env f2 (load_layer env p "B10_RAW") 0.0003342 0.1).1 :=
      rc_result_files_independent env f1 f2 (toa_formula 0.0003342 0.1)
        [create_raster_entry (load_layer env p "B10_RAW") "b10"] "TOA_Radiance" h1
    cases ht1 : (calculate_toa env f1 (load_layer env p "B10_RAW") 0.0003342 0.1).1 with
    | error e =>
      have ht2 : (calculate_toa env f2 (load_layer env p "B10_RAW") 0.0003342 0.1).1 =
          .error e := htEq.symm.trans ht1
      rw [lst_toa_error env f1 p e hval ht1, lst_toa_error env f2 p e hval ht2]
      exact ⟨rfl, by rw [cT1, cT2]⟩
    | ok toaL =>
      have ht2 : (calculate_toa env f2 (load_layer env p "B10_RAW") 0.0003342 0.1).1 =
          .ok toaL := htEq.symm.trans ht1
      have cB1 : addedLayers (calculate_bt env
          (calculate_toa env f1 (load_layer env p "B10_RAW") 0.0003342 0.1).2.2
          toaL).2.1 = [] := rc_addedLayers_nil env _ _ _ _
      have cB2 : addedLayers (calculate_bt env
          (calculate_toa env f2 (load_layer env p "B10_RAW") 0.0003342 0.1).2.2
          toaL).2.1 = [] := rc_addedLayers_nil env _ _ _ _
      have hbEq : (calculate_bt env
          (calculate_toa env f1 (load_layer env p "B10_RAW") 0.0003342 0.1).2.2
          toaL).1 = (calculate_bt env
          (calculate_toa env f2 (load_layer env p "B10_RAW") 0.0003342 0.1).2.2
          toaL).1 :=
        rc_result_files_independent env _ _ bt_formula
          [create_raster_entry toaL "toa"] "BrightnessTemp" h2
      cases hb1 : (calculate_bt env
          (calculate_toa env f1 (load_layer env p "B10_RAW") 0.0003342 0.1).2.2
          toaL).1 with
      | error e =>
        have hb2 := hbEq.symm.trans hb1
        rw [lst_bt_error env f1 p e toaL hval ht1 hb1,
            lst_bt_error env f2 p e toaL hval ht2 hb2]
        refine ⟨rfl, ?_⟩
        rw [addedLayers_append, addedLayers_append, cT1, cT2, cB1, cB2]
      | ok btL =>
        have hb2 := hbEq.symm.trans hb1
        rw [lst_ok env f1 p toaL btL hval ht1 hb1,
            lst_ok env f2 p toaL btL hval ht2 hb2]
        refine ⟨rfl, ?_⟩
        rw [addedLayers_append, addedLayers_append, addedLayers_append,
            addedLayers_append, cT1, cT2, cB1, cB2]

/-- Validation never deletes files (it emits only statistics logs). -/
theorem validate_no_removed (env : Env) (es : List Entry) :
    ∀ q, Event.removed q ∉ (validate_entries env es).2 := by
  induction es with
  | nil => intro q hq; simp [validate_entries] at hq
  | cons e rest ih =>
    intro q hq
    by_cases he : e.raster.valid
    · simp only [validate_entries, he, if_true, List.mem_cons] at hq
      rcases hq with h | h
      · cases h
      · exact ih q h
    · simp [validate_entries, he] at hq

/-- Validation does not consult the removal oracle. -/
theorem validate_remove_independent (env : Env) (rb : String → RemoveOutcome)
    (es : List Entry) :
    validate_entries { env with removeBehavior := rb } es =
      validate_entries env es := by
  induction es with
  | nil => rfl
  | cons e rest ih =>
    by_cases he : e.raster.valid
    · simp only [validate_entries, he, if_true, ih]
    · simp [validate_entries, he]

/-- Once validation passes, its statistics-log events appear among the
evaluation's events in every outcome of the engine and reload steps. -/
theorem rc_contains_validate_events (env : Env) (fs : Files) (f : Expr)
    (es : List Entry) (nm : String)
    (hc : (cleanup_existing env fs (tifPath env nm)).1 = .ok ())
    (hv : (validate_entries env es).1 = .ok ()) :
    ∀ ev ∈ (validate_entries env es).2, ev ∈ (raster_calculation env fs f es nm).2.1 := by
  intro ev hev
  by_cases hr : env.engineResult f (tifPath env nm) = 0
  · cases hl : env.layerValid (tifPath env nm) with
    | false =>
      rw [rc_reload_fail env fs f es nm hc hv hr hl]
      simp [List.mem_append, hev]
    | true =>
      rw [rc_success env fs f es nm hc hv hr hl]
      simp [List.mem_append, hev]
  · rw [rc_engine_error env fs f es nm hc hv hr]
    simp [List.mem_append, hev]

/-- On an error verdict, the body has emitted only core events (no user
notification, no layer registration). -/
theorem lst_body_error_events_core (env : Env) (fs : Files) (p : String)
    (e : String) (h : (lst_body env fs p).1 = .error e) :
    ∀ ev ∈ (lst_body env fs p).2.1, isCoreEvent ev = true := by
  by_cases hval : env.layerValid p = true
  · cases ht : (calculate_toa env fs (load_layer env p "B10_RAW") 0.0003342 0.1).1 with
    | error e2 =>
      rw [lst_toa_error env fs p e2 hval ht]
      exact rc_events_core env fs _ _ _
    | ok toaL =>
      cases hb : (calculate_bt env
          (calculate_toa env fs (load_layer env p "B10_RAW") 0.0003342 0.1).2.2
          toaL).1 with
      | error e2 =>
        rw [lst_bt_error env fs p e2 toaL hval ht hb]
        intro ev hev
        rcases List.mem_append.mp hev with h2 | h2
        · exact rc_events_core env fs _ _ _ ev h2
        · exact rc_events_core env _ _ _ _ ev h2
      | ok btL =>
        rw [lst_ok env fs p toaL btL hval ht hb] at h
        simp at h
  · have hval2 : env.layerValid p = false := by
      cases hE : env.layerValid p
      · rfl
      · exact absurd hE hval
    rw [lst_invalid env fs p hval2]
    intro ev hev
    simp at hev

/-- C1: the TOA stage computes `TOA = ML * B10 + AL` pixel-wise, the
formula it hands to the engine contains a floating-point literal (the
`* 1.0` coercion plus the interpolated constants), so evaluation is
performed in floating point and integer-typed inputs are not truncated,
and `calculate_toa` runs exactly this formula over the single `b10`
entry with output name `TOA_Radiance`. -/
theorem toa_stage_correct (lnQ : ℚ → ℚ) (ml al b10 : ℚ) :
    evalExpr lnQ (envOf "b10@1" b10) (toa_formula ml al) = some (ml * b10 + al)
    ∧ containsFloatLit (toa_formula ml al) = true
    ∧ (∀ env fs band_layer,
        calculate_toa env fs band_layer ml al =
          raster_calculation env fs (toa_formula ml al)
            [create_raster_entry band_layer "b10"] "TOA_Radiance") := by
  refine ⟨?_, rfl, fun _ _ _ => rfl⟩
  simp [toa_formula, evalExpr, envOf]
  left
  norm_num

/-- C2: for every pixel value `TOA ≥ 0` the BT stage evaluates
`BT = K2 / ln(K1 / (TOA + 1e-6) + 1) - 273.15` without a
division-by-zero or log-domain error (the result is `some _`, never the
engine's evaluation failure `none`): the epsilon keeps the inner
denominator positive and the log argument strictly above 1, so the log
is positive and the outer division is by a nonzero value. `lnQ` is any
function behaving like the natural logarithm on arguments above 1. -/
theorem bt_stage_safe (lnQ : ℚ → ℚ) (hln : ∀ x : ℚ, 1 < x → 0 < lnQ x)
    (toa : ℚ) (htoa : 0 ≤ toa) :
    evalExpr lnQ (envOf "toa@1" toa) bt_formula =
      some (k2 / lnQ (k1 / (toa + 0.000001) + 1) - 273.15)
    ∧ (∀ env fs toa_layer,
        calculate_bt env fs toa_layer =
          raster_calculation env fs bt_formula
            [create_raster_entry toa_layer "toa"] "BrightnessTemp") := by
  refine ⟨?_, fun _ _ _ => rfl⟩
  have h1 : (0:ℚ) < toa + 0.000001 := by
    have : (0:ℚ) < 0.000001 := by norm_num
    linarith
  have h1n : ¬ (toa + 0.000001 = 0) := by positivity
  have h2 : (0:ℚ) < k1 / (toa + 0.000001) := by
    have hk : (0:ℚ) < k1 := by norm_num [k1]
    exact div_pos hk h1
  have h3 : (1:ℚ) < k1 / (toa + 0.000001) + 1 := by linarith
  have h4 : ¬ (k1 / (toa + 0.000001) + 1 ≤ 0) := by linarith
  have h5 : ¬ (lnQ (k1 / (toa + 0.000001) + 1) = 0) := ne_of_gt (hln _ h3)
  simp [bt_formula, evalExpr, envOf, h1n, h4, h5]

/-- Witness for `bt_stage_safe` at `toa = 0` with `lnQ x = x - 1`. -/
theorem bt_stage_safe_witness :
    evalExpr (fun x => x - 1) (envOf "toa@1" 0) bt_formula =
      some (k2 / ((k1 / (0 + 0.000001) + 1) - 1) - 273.15) :=
  (bt_stage_safe (fun x => x - 1)
    (fun x hx => by show (0:ℚ) < x - 1; linarith) 0 (le_refl 0)).1

/-- C8: every breakpoint list the styler hands to the renderer is
strictly increasing in value (the only list it ever hands over is the
fixed default), and that default is `{20,30,40,50,60,70}` °C mapped
blue, cyan, green, yellow, orange, red. -/
theorem styler_breakpoints_strictly_increasing :
    (∀ layer nm its, style_thermal_layer layer = .styled nm its →
        List.Chain' (fun a b => a.value < b.value) its
        ∧ its = thermal_ramp_items)
    ∧ thermal_ramp_items.map (fun i => i.value) = [20, 30, 40, 50, 60, 70]
    ∧ thermal_ramp_items.map (fun i => i.color) =
        [(0, 0, 255), (0, 255, 255), (0, 255, 0),
         (255, 255, 0), (255, 165, 0), (255, 0, 0)] := by
  refine ⟨?_, rfl, rfl⟩
  intro layer nm its h
  injection h with h1 h2
  subst h2
  refine ⟨?_, rfl⟩
  norm_num [thermal_ramp_items, List.chain'_cons, List.chain'_singleton]

/-- Witness for `styler_breakpoints_strictly_increasing` on a concrete
layer. -/
theorem styler_breakpoints_witness :
    List.Chain' (fun a b => a.value < b.value) thermal_ramp_items
    ∧ thermal_ramp_items = thermal_ramp_items :=
  styler_breakpoints_strictly_increasing.1 demoLayer "BrightnessTemp"
    thermal_ramp_items rfl

/-- C3: every error raised by a lower component during a pipeline run
is caught exactly once at `calculate_lst`, reported through the message
bar at critical level with the original message text preserved, logged,
and no raster is added to the project. -/
theorem calculate_lst_error_policy (env : Env) (fs : Files) (p : String)
    (e : String) (evs : List Event) (fs1 : Files)
    (h : lst_body env fs p = (.error e, evs, fs1)) :
    calculate_lst env fs p =
      (evs ++ [.pushedCritical "Error" e, .logCritical ("Error: " ++ e)], fs1)
    ∧ List.countP isPushedCritical
        (evs ++ [.pushedCritical "Error" e, .logCritical ("Error: " ++ e)]) = 1
    ∧ addedLayers
        (evs ++ [.pushedCritical "Error" e, .logCritical ("Error: " ++ e)]) = [] := by
  have h1 : (lst_body env fs p).1 = .error e := by rw [h]
  have hev : (lst_body env fs p).2.1 = evs := by rw [h]
  have hfs : (lst_body env fs p).2.2 = fs1 := by rw [h]
  have hcore : ∀ ev ∈ evs, isCoreEvent ev = true := by
    rw [← hev]
    exact lst_body_error_events_core env fs p e h1
  refine ⟨?_, ?_, ?_⟩
  · rw [calculate_lst_of_error env fs p e h1, hev, hfs]
  · rw [List.countP_append, countP_critical_core_zero evs hcore]
    rfl
  · rw [addedLayers_append, addedLayers_core_nil evs hcore]
    rfl

/-- Witness for `calculate_lst_error_policy`: an invalid band-10 file
aborts the pipeline with the critical notification and log. -/
theorem calculate_lst_error_policy_witness :
    calculate_lst badEnv fs0 "b10.tif" =
      ([] ++ [.pushedCritical "Error"
          "Invalid Band 10 file. Check file format and path.",
        .logCritical
          ("Error: " ++ "Invalid Band 10 file. Check file format and path.")], fs0)
    ∧ List.countP isPushedCritical
        ([] ++ [.pushedCritical "Error"
            "Invalid Band 10 file. Check file format and path.",
          .logCritical
            ("Error: " ++ "Invalid Band 10 file. Check file format and path.")]) = 1
    ∧ addedLayers
        ([] ++ [.pushedCritical "Error"
            "Invalid Band 10 file. Check file format and path.",
          .logCritical
            ("Error: " ++ "Invalid Band 10 file. Check file format and path.")])
        = [] :=
  calculate_lst_error_policy badEnv fs0 "b10.tif"
    "Invalid Band 10 file. Check file format and path." [] fs0 rfl

/-- C4: an existing output file is deleted before anything else (when
removal succeeds the deletion is the first recorded action), and a
locked output file produces the file-in-use failure naming the path,
strictly before the algebra engine is invoked. -/
theorem raster_calculation_cleanup_first (env : Env) (fs : Files) (f : Expr)
    (es : List Entry) (nm : String) (c : Content)
    (hex : fs (tifPath env nm) = some c) :
    (env.removeBehavior (tifPath env nm) = .ok →
       ∃ rest, (raster_calculation env fs f es nm).2.1 =
         .removed (tifPath env nm) :: rest)
    ∧ (env.removeBehavior (tifPath env nm) = .permissionError →
       raster_calculation env fs f es nm =
         (.error ("File in use: " ++ tifPath env nm ++ ". Close other programs."),
          [], fs)
       ∧ ∀ g q, Event.engineInvoked g q ∉ (raster_calculation env fs f es nm).2.1) := by
  constructor
  · intro hrm
    exact rc_removed_mem env fs f es nm c hex hrm
  · intro hrm
    have hcl := cleanup_some_perm env fs (tifPath env nm) c hex hrm
    have heq := rc_cleanup_error env fs f es nm
      ("File in use: " ++ tifPath env nm ++ ". Close other programs.") (by rw [hcl])
    rw [hcl] at heq
    refine ⟨heq, ?_⟩
    rw [heq]
    simp

/-- Witness for `raster_calculation_cleanup_first`: locked output file.
-/
theorem raster_calculation_cleanup_first_witness :
    raster_calculation lockedEnv fsWithOutputs bt_formula [] "BrightnessTemp" =
      (.error ("File in use: " ++ tifPath lockedEnv "BrightnessTemp" ++
        ". Close other programs."), [], fsWithOutputs)
    ∧ ∀ g q, Event.engineInvoked g q ∉
        (raster_calculation lockedEnv fsWithOutputs bt_formula []
          "BrightnessTemp").2.1 :=
  (raster_calculation_cleanup_first lockedEnv fsWithOutputs bt_formula []
    "BrightnessTemp" (.source "old") rfl).2 rfl

/-- C5 (amended): any non-zero engine result code is a hard failure
with no file written, the message carries the raw code, and codes 1-4
are mapped to the four classified messages; other non-zero codes fall
through to the unclassified "Unknown error" message. -/
theorem raster_calculation_engine_failure (env : Env) (fs : Files) (f : Expr)
    (es : List Entry) (nm : String)
    (hclean : fs (tifPath env nm) = none)
    (hvalid : ∀ e ∈ es, e.raster.valid = true)
    (hr : env.engineResult f (tifPath env nm) ≠ 0) :
    (raster_calculation env fs f es nm).1 =
      .error ("GDAL Error " ++ toString (env.engineResult f (tifPath env nm))
        ++ ": " ++ (error_map (env.engineResult f (tifPath env nm))).getD
          "Unknown error")
    ∧ (raster_calculation env fs f es nm).2.2 = fs
    ∧ error_map 1 = some "Missing input layers"
    ∧ error_map 2 = some "Invalid formula syntax"
    ∧ error_map 3 = some "Calculation error (e.g., division by zero)"
    ∧ error_map 4 = some "GDAL internal error" := by
  have hcleq := cleanup_none env fs (tifPath env nm) hclean
  have hc : (cleanup_existing env fs (tifPath env nm)).1 = .ok () := by rw [hcleq]
  have hv := validate_ok_of_valid env es hvalid
  have heq := rc_engine_error env fs f es nm hc hv hr
  exact ⟨by rw [heq], by rw [heq, hcleq], rfl, rfl, rfl, rfl⟩

/-- Witness for `raster_calculation_engine_failure` at code 5. -/
theorem raster_calculation_engine_failure_witness :
    (raster_calculation code5Env fs0 (toa_formula 0.0003342 0.1) []
        "TOA_Radiance").1 = .error "GDAL Error 5: Unknown error"
    ∧ (raster_calculation code5Env fs0 (toa_formula 0.0003342 0.1) []
        "TOA_Radiance").2.2 = fs0
    ∧ error_map 1 = some "Missing input layers"
    ∧ error_map 2 = some "Invalid formula syntax"
    ∧ error_map 3 = some "Calculation error (e.g., division by zero)"
    ∧ error_map 4 = some "GDAL internal error" :=
  raster_calculation_engine_failure code5Env fs0 (toa_formula 0.0003342 0.1) []
    "TOA_Radiance" rfl (by simp) (by decide)

/-- C5 counterexample: engine result code 5 is non-zero but is mapped to
none of the four classified error messages — the `error_map` lookup
misses and the failure is reported as "Unknown error". -/
theorem engine_error_unknown_counterexample :
    (raster_calculation code5Env fs0 bt_formula [] "BrightnessTemp").1 =
      .error "GDAL Error 5: Unknown error"
    ∧ error_map 5 = none
    ∧ "Unknown error" ≠ "Missing input layers"
    ∧ "Unknown error" ≠ "Invalid formula syntax"
    ∧ "Unknown error" ≠ "Calculation error (e.g., division by zero)"
    ∧ "Unknown error" ≠ "GDAL internal error" := by
  exact ⟨rfl, rfl, by decide, by decide, by decide, by decide⟩

/-- C6: after an engine-reported success the output is reloaded from its
persisted file; an invalid reload raises the output-write failure naming
the path, and a valid reload returns exactly the reloaded handle, with
the persisted file present. -/
theorem raster_calculation_output_validation (env : Env) (fs : Files) (f : Expr)
    (es : List Entry) (nm : String)
    (hclean : fs (tifPath env nm) = none)
    (hvalid : ∀ e ∈ es, e.raster.valid = true)
    (hr : env.engineResult f (tifPath env nm) = 0) :
    (env.layerValid (tifPath env nm) = false →
       (raster_calculation env fs f es nm).1 =
         .error ("Failed to create output layer: " ++ tifPath env nm))
    ∧ (env.layerValid (tifPath env nm) = true →
       (raster_calculation env fs f es nm).1 =
         .ok { path := tifPath env nm, name := nm, valid := true,
               content := computed_output f es }
       ∧ (raster_calculation env fs f es nm).2.2 (tifPath env nm) =
           some (computed_output f es)) := by
  have hcleq := cleanup_none env fs (tifPath env nm) hclean
  have hc : (cleanup_existing env fs (tifPath env nm)).1 = .ok () := by rw [hcleq]
  have hv := validate_ok_of_valid env es hvalid
  constructor
  · intro hl
    rw [rc_reload_fail env fs f es nm hc hv hr hl]
  · intro hl
    have heq := rc_success env fs f es nm hc hv hr hl
    refine ⟨by rw [heq], ?_⟩
    rw [heq]
    simp [write_file]

/-- Witness for `raster_calculation_output_validation` under the benign
environment. -/
theorem raster_calculation_output_validation_witness :
    (demoEnv.layerValid (tifPath demoEnv "TOA_Radiance") = false →
       (raster_calculation demoEnv fs0 (toa_formula 0.0003342 0.1) []
           "TOA_Radiance").1 =
         .error ("Failed to create output layer: " ++ tifPath demoEnv "TOA_Radiance"))
    ∧ (demoEnv.layerValid (tifPath demoEnv "TOA_Radiance") = true →
       (raster_calculation demoEnv fs0 (toa_formula 0.0003342 0.1) []
           "TOA_Radiance").1 =
         .ok { path := tifPath demoEnv "TOA_Radiance", name := "TOA_Radiance",
               valid := true,
               content := computed_output (toa_formula 0.0003342 0.1) [] }
       ∧ (raster_calculation demoEnv fs0 (toa_formula 0.0003342 0.1) []
           "TOA_Radiance").2.2 (tifPath demoEnv "TOA_Radiance") =
           some (computed_output (toa_formula 0.0003342 0.1) [])) :=
  raster_calculation_output_validation demoEnv fs0 (toa_formula 0.0003342 0.1) []
    "TOA_Radiance" rfl (by simp) rfl

/-- C9: band-statistics computation is diagnostic only: the evaluation's
verdict and the files it writes do not depend on the statistics oracle
(so a statistics failure, yielding `none`/`none`, never aborts an
otherwise valid evaluation), and each entry's statistics — including
`none`/`none` — are logged. -/
theorem stats_failures_nonfatal (env : Env) (s2 : String → Option ℚ × Option ℚ)
    (fs : Files) (f : Expr) (es : List Entry) (nm : String)
    (hclean : fs (tifPath env nm) = none)
    (hvalid : ∀ e ∈ es, e.raster.valid = true) :
    (raster_calculation { env with statsOf := s2 } fs f es nm).1 =
      (raster_calculation env fs f es nm).1
    ∧ (raster_calculation { env with statsOf := s2 } fs f es nm).2.2 =
      (raster_calculation env fs f es nm).2.2
    ∧ ∀ e ∈ es, Event.statsLogged e.ref (env.statsOf e.raster.path).1
        (env.statsOf e.raster.path).2 ∈ (raster_calculation env fs f es nm).2.1 := by
  have hcleq1 := cleanup_none env fs (tifPath env nm) hclean
  have hcleq2 := cleanup_none { env with statsOf := s2 } fs
    (tifPath { env with statsOf := s2 } nm) hclean
  have hc1 : (cleanup_existing env fs (tifPath env nm)).1 = .ok () := by rw [hcleq1]
  have hc2 : (cleanup_existing { env with statsOf := s2 } fs
      (tifPath { env with statsOf := s2 } nm)).1 = .ok () := by rw [hcleq2]
  have hv1 := validate_ok_of_valid env es hvalid
  have hv2 : (validate_entries { env with statsOf := s2 } es).1 = .ok () := by
    rw [validate_result_stats_independent env s2 es]
    exact hv1
  refine ⟨?_, ?_, fun e he => rc_contains_validate_events env fs f es nm hc1 hv1 _
    (validate_logs_stats env es hvalid e he)⟩
  · by_cases hr : env.engineResult f (tifPath env nm) = 0
    · cases hl : env.layerValid (tifPath env nm) with
      | false =>
        rw [rc_reload_fail env fs f es nm hc1 hv1 hr hl,
            rc_reload_fail { env with statsOf := s2 } fs f es nm hc2 hv2 hr hl]
        rfl
      | true =>
        rw [rc_success env fs f es nm hc1 hv1 hr hl,
            rc_success { env with statsOf := s2 } fs f es nm hc2 hv2 hr hl]
        rfl
    · rw [rc_engine_error env fs f es nm hc1 hv1 hr,
          rc_engine_error { env with statsOf := s2 } fs f es nm hc2 hv2 hr]
      rfl
  · by_cases hr : env.engineResult f (tifPath env nm) = 0
    · cases hl : env.layerValid (tifPath env nm) with
      | false =>
        rw [rc_reload_fail env fs f es nm hc1 hv1 hr hl,
            rc_reload_fail { env with statsOf := s2 } fs f es nm hc2 hv2 hr hl,
            hcleq1, hcleq2]
        rfl
      | true =>
        rw [rc_success env fs f es nm hc1 hv1 hr hl,
            rc_success { env with statsOf := s2 } fs f es nm hc2 hv2 hr hl,
            hcleq1, hcleq2]
        rfl
    · rw [rc_engine_error env fs f es nm hc1 hv1 hr,
          rc_engine_error { env with statsOf := s2 } fs f es nm hc2 hv2 hr,
          hcleq1, hcleq2]

/-- Witness for `stats_failures_nonfatal`: the demo environment's
statistics oracle fails (`none`/`none`), yet the evaluation's verdict
matches that under an oracle that succeeds, and the failed statistics
are still logged. -/
theorem stats_failures_nonfatal_witness :
    (raster_calculation { demoEnv with statsOf := fun _ => (some 0, some 1) } fs0
        (toa_formula 0.0003342 0.1) demoEntries "TOA_Radiance").1 =
      (raster_calculation demoEnv fs0 (toa_formula 0.0003342 0.1) demoEntries
        "TOA_Radiance").1
    ∧ (raster_calculation { demoEnv with statsOf := fun _ => (some 0, some 1) } fs0
        (toa_formula 0.0003342 0.1) demoEntries "TOA_Radiance").2.2 =
      (raster_calculation demoEnv fs0 (toa_formula 0.0003342 0.1) demoEntries
        "TOA_Radiance").2.2
    ∧ ∀ e ∈ demoEntries, Event.statsLogged e.ref (demoEnv.statsOf e.raster.path).1
        (demoEnv.statsOf e.raster.path).2 ∈
          (raster_calculation demoEnv fs0 (toa_formula 0.0003342 0.1) demoEntries
            "TOA_Radiance").2.1 :=
  stats_failures_nonfatal demoEnv (fun _ => (some 0, some 1)) fs0
    (toa_formula 0.0003342 0.1) demoEntries "TOA_Radiance" rfl
    (by simp [demoEntries, create_raster_entry, demoLayer])

/-- C10: during pre-write cleanup, only a `PermissionError` is
classified as the file-in-use (output-conflict) failure naming the path;
any other removal failure propagates unchanged; and with no file at the
output path the deletion step is skipped entirely — nothing is removed
and the run does not depend on the removal oracle at all. -/
theorem cleanup_error_classification (env : Env) (fs : Files) (f : Expr)
    (es : List Entry) (nm : String) :
    (∀ c, fs (tifPath env nm) = some c →
       env.removeBehavior (tifPath env nm) = .permissionError →
       raster_calculation env fs f es nm =
         (.error ("File in use: " ++ tifPath env nm ++ ". Close other programs."),
          [], fs))
    ∧ (∀ c m, fs (tifPath env nm) = some c →
       env.removeBehavior (tifPath env nm) = .otherError m →
       raster_calculation env fs f es nm = (.error m, [], fs))
    ∧ (fs (tifPath env nm) = none →
       (∀ q, Event.removed q ∉ (raster_calculation env fs f es nm).2.1)
       ∧ ∀ rb, raster_calculation { env with removeBehavior := rb } fs f es nm =
            raster_calculation env fs f es nm) := by
  refine ⟨?_, ?_, ?_⟩
  · intro c hex hrm
    have hcl := cleanup_some_perm env fs (tifPath env nm) c hex hrm
    have heq := rc_cleanup_error env fs f es nm
      ("File in use: " ++ tifPath env nm ++ ". Close other programs.") (by rw [hcl])
    rw [hcl] at heq
    exact heq
  · intro c m hex hrm
    have hcl := cleanup_some_other env fs (tifPath env nm) c m hex hrm
    have heq := rc_cleanup_error env fs f es nm m (by rw [hcl])
    rw [hcl] at heq
    exact heq
  · intro hnone
    have hcleq1 := cleanup_none env fs (tifPath env nm) hnone
    have hc1 : (cleanup_existing env fs (tifPath env nm)).1 = .ok () := by rw [hcleq1]
    constructor
    · intro q hq
      cases hv : (validate_entries env es).1 with
      | error e =>
        rw [rc_validate_error env fs f es nm e hc1 hv, hcleq1] at hq
        simp at hq
        exact validate_no_removed env es q hq
      | ok u =>
        cases u
        by_cases hr : env.engineResult f (tifPath env nm) = 0
        · cases hl : env.layerValid (tifPath env nm) with
          | false =>
            rw [rc_reload_fail env fs f es nm hc1 hv hr hl, hcleq1] at hq
            simp at hq
            exact validate_no_removed env es q hq
          | true =>
            rw [rc_success env fs f es nm hc1 hv hr hl, hcleq1] at hq
            simp at hq
            exact validate_no_removed env es q hq
        · rw [rc_engine_error env fs f es nm hc1 hv hr, hcleq1] at hq
          simp at hq
          exact validate_no_removed env es q hq
    · intro rb
      have hcleq2 := cleanup_none { env with removeBehavior := rb } fs
        (tifPath { env with removeBehavior := rb } nm) hnone
      have hc2 : (cleanup_existing { env with removeBehavior := rb } fs
          (tifPath { env with removeBehavior := rb } nm)).1 = .ok () := by rw [hcleq2]
      cases hv : (validate_entries env es).1 with
      | error e =>
        have hv2 : (validate_entries { env with removeBehavior := rb } es).1 =
            .error e := by rw [validate_remove_independent env rb es]; exact hv
        rw [rc_validate_error env fs f es nm e hc1 hv,
            rc_validate_error { env with removeBehavior := rb } fs f es nm e hc2 hv2,
            hcleq1, hcleq2, validate_remove_independent env rb es]
      | ok u =>
        cases u
        have hv2 : (validate_entries { env with removeBehavior := rb } es).1 =
            .ok () := by rw [validate_remove_independent env rb es]; exact hv
        by_cases hr : env.engineResult f (tifPath env nm) = 0
        · cases hl : env.layerValid (tifPath env nm) with
          | false =>
            rw [rc_reload_fail env fs f es nm hc1 hv hr hl,
                rc_reload_fail { env with removeBehavior := rb } fs f es nm hc2 hv2
                  hr hl,
                hcleq1, hcleq2, validate_remove_independent env rb es]
            rfl
          | true =>
            rw [rc_success env fs f es nm hc1 hv hr hl,
                rc_success { env with removeBehavior := rb } fs f es nm hc2 hv2 hr hl,
                hcleq1, hcleq2, validate_remove_independent env rb es]
            rfl
        · rw [rc_engine_error env fs f es nm hc1 hv hr,
              rc_engine_error { env with removeBehavior := rb } fs f es nm hc2 hv2 hr,
              hcleq1, hcleq2, validate_remove_independent env rb es]
          rfl

/-- Witness for `cleanup_error_classification`: a non-permission removal
failure propagates with its own message, unclassified. -/
theorem cleanup_error_classification_witness :
    raster_calculation dirEnv fsWithOutputs (toa_formula 0.0003342 0.1) []
        "TOA_Radiance" =
      (.error "IsADirectoryError: output", [], fsWithOutputs) :=
  (cleanup_error_classification dirEnv fsWithOutputs (toa_formula 0.0003342 0.1) []
    "TOA_Radiance").2.1 (.source "old") "IsADirectoryError: output" rfl rfl

/-- C7: running the pipeline twice on the same input with the same
output paths registers the same final raster content both times and
reaches the same verdict, and the second run deletes the output file
left behind by the first run (the deletion is recorded) instead of
failing — provided the files are not locked. -/
theorem pipeline_idempotent (env : Env) (fs : Files) (p : String)
    (h1 : env.removeBehavior (tifPath env "TOA_Radiance") = .ok)
    (h2 : env.removeBehavior (tifPath env "BrightnessTemp") = .ok) :
    addedLayers (calculate_lst env (calculate_lst env fs p).2 p).1 =
      addedLayers (calculate_lst env fs p).1
    ∧ (lst_body env (calculate_lst env fs p).2 p).1 = (lst_body env fs p).1
    ∧ ((lst_body env fs p).1 = .ok () →
        Event.removed (tifPath env "TOA_Radiance") ∈
          (calculate_lst env (calculate_lst env fs p).2 p).1) := by
  have hfs1 : (calculate_lst env fs p).2 = (lst_body env fs p).2.2 :=
    calculate_lst_snd env fs p
  have hind := lst_result_files_independent env ((calculate_lst env fs p).2) fs p h1 h2
  have ha : ∀ g : Files, addedLayers (calculate_lst env g p).1 =
      addedLayers (lst_body env g p).2.1 := by
    intro g
    cases hb : (lst_body env g p).1 with
    | error e =>
      rw [calculate_lst_of_error env g p e hb, addedLayers_append]
      simp [addedLayers]
    | ok u =>
      cases u
      rw [calculate_lst_of_ok env g p hb]
  refine ⟨?_, hind.1, ?_⟩
  · rw [ha ((calculate_lst env fs p).2), ha fs, hind.2]
  · intro hok
    obtain ⟨hval, toaL, btL, ht, hb, hfs2⟩ := lst_ok_inversion env fs p hok
    have hw : (calculate_toa env fs (load_layer env p "B10_RAW") 0.0003342
        0.1).2.2 (tifPath env "TOA_Radiance") =
        some (computed_output (toa_formula 0.0003342 0.1)
          [create_raster_entry (load_layer env p "B10_RAW") "b10"]) :=
      (rc_ok_written env fs (toa_formula 0.0003342 0.1)
        [create_raster_entry (load_layer env p "B10_RAW") "b10"] "TOA_Radiance"
        toaL ht).1
    have hpres : (calculate_bt env
        (calculate_toa env fs (load_layer env p "B10_RAW") 0.0003342 0.1).2.2
        toaL).2.2 (tifPath env "TOA_Radiance") =
        (calculate_toa env fs (load_layer env p "B10_RAW") 0.0003342
          0.1).2.2 (tifPath env "TOA_Radiance") :=
      rc_files_preserve env
        (calculate_toa env fs (load_layer env p "B10_RAW") 0.0003342 0.1).2.2
        bt_formula [create_raster_entry toaL "toa"] "BrightnessTemp"
        (tifPath env "TOA_Radiance") (tif_paths_ne env)
    have hfs1toa : (calculate_lst env fs p).2 (tifPath env "TOA_Radiance") =
        some (computed_output (toa_formula 0.0003342 0.1)
          [create_raster_entry (load_layer env p "B10_RAW") "b10"]) := by
      rw [hfs1, hfs2, hpres, hw]
    have hok2 : (lst_body env ((calculate_lst env fs p).2) p).1 = .ok () :=
      hind.1.trans hok
    obtain ⟨hval2, toaL2, btL2, ht2, hb2, hfs3⟩ :=
      lst_ok_inversion env ((calculate_lst env fs p).2) p hok2
    obtain ⟨rest, hrest⟩ := rc_removed_mem env ((calculate_lst env fs p).2)
      (toa_formula 0.0003342 0.1)
      [create_raster_entry (load_layer env p "B10_RAW") "b10"] "TOA_Radiance"
      (computed_output (toa_formula 0.0003342 0.1)
        [create_raster_entry (load_layer env p "B10_RAW") "b10"]) hfs1toa h1
    have hmem : Event.removed (tifPath env "TOA_Radiance") ∈
        (calculate_toa env ((calculate_lst env fs p).2)
          (load_layer env p "B10_RAW") 0.0003342 0.1).2.1 := by
      rw [show (calculate_toa env ((calculate_lst env fs p).2)
          (load_layer env p "B10_RAW") 0.0003342 0.1).2.1 =
          Event.removed (tifPath env "TOA_Radiance") :: rest from hrest]
      exact List.mem_cons_self _ _
    rw [calculate_lst_of_ok env ((calculate_lst env fs p).2) p hok2,
        lst_ok env ((calculate_lst env fs p).2) p toaL2 btL2 hval2 ht2 hb2]
    simp only [List.mem_append]
    exact Or.inl (Or.inl hmem)

/-- Witness for `pipeline_idempotent` under the benign environment. -/
theorem pipeline_idempotent_witness :
    addedLayers (calculate_lst demoEnv (calculate_lst demoEnv fs0 "b10.tif").2
        "b10.tif").1 =
      addedLayers (calculate_lst demoEnv fs0 "b10.tif").1
    ∧ (lst_body demoEnv (calculate_lst demoEnv fs0 "b10.tif").2 "b10.tif").1 =
      (lst_body demoEnv fs0 "b10.tif").1
    ∧ ((lst_body demoEnv fs0 "b10.tif").1 = .ok () →
        Event.removed (tifPath demoEnv "TOA_Radiance") ∈
          (calculate_lst demoEnv (calculate_lst demoEnv fs0 "b10.tif").2
            "b10.tif").1) :=
  pipeline_idempotent demoEnv fs0 "b10.tif" rfl rfl

end LSTPlugin
